import Mathlib

/-!
Verification of the macOS environment-validation engine
(`scripts/check_macos_env.py`).

The Python script is shallowly embedded: every check function becomes a
total Lean function over an explicit `Env` record that carries the
process-wide inputs the script reads (mock override environment
variables, `platform.system()`, and the outcome of each external
`subprocess.run` invocation).  Exceptions raised by the external probes
are part of `Env` (constructor `ProbeOutcome.raises`); Python's
`try`/`except` blocks become pattern matches on that constructor, so
totality of the Lean functions models the script's
no-exception-escapes behaviour.
-/

namespace MacosEnvCheck

/-- `CheckResult` dataclass of the script: result of one environment check. -/
structure CheckResult where
  name : String
  passed : Bool
  version : Option String
  message : String
  fix_command : Option String
deriving DecidableEq, Repr

/-- Python exceptions that a probe can raise, as observed by the script's
handlers: `FileNotFoundError` is caught specifically by two of the checks,
everything else (`ValueError`, `TimeoutExpired`, ...) only by the generic
`except Exception as e` handler.  The payload is the text `str(e)`. -/
inductive PyExc where
  | fileNotFound (msg : String)
  | other (msg : String)
deriving DecidableEq, Repr

/-- Result of a completed `subprocess.run` call: exit status and captured
output streams. -/
structure ProcResult where
  returncode : Int
  stdout : String
  stderr : String
deriving DecidableEq, Repr

/-- Outcome of one external probe: either the subprocess call raised an
exception, or it completed with a `ProcResult`. -/
inductive ProbeOutcome where
  | raises (e : PyExc)
  | completes (r : ProcResult)
deriving DecidableEq, Repr

/-- The process-wide inputs the script reads: one mock override environment
variable per check (`os.getenv` yields `none` when the variable is unset),
the `platform.system()` string, and the outcome of each of the three
external commands the script may run. -/
structure Env where
  mockMacosVersion : Option String
  mockXcodeVersion : Option String
  mockMetalAvailable : Option String
  platformSystem : String
  swVers : ProbeOutcome
  xcodebuild : ProbeOutcome
  xcrunMetal : ProbeOutcome
deriving DecidableEq, Repr

/-- `REQUIRED_MACOS_VERSION` constant of the script. -/
def REQUIRED_MACOS_VERSION : String := "15.0"

/-- `REQUIRED_XCODE_VERSION` constant of the script. -/
def REQUIRED_XCODE_VERSION : String := "16.0"

/-- Python whitespace as used by `str.strip` and the regex class `\s`
(ASCII range; the version strings involved never contain non-ASCII
whitespace). -/
def isPyWs (c : Char) : Bool :=
  c = ' ' || c = '\t' || c = '\n' || c = '\r' || c = '\x0b' || c = '\x0c'

/-- Python `str.strip()`: remove leading and trailing whitespace. -/
def pyStrip (s : String) : String :=
  String.mk (((s.toList.dropWhile isPyWs).reverse.dropWhile isPyWs).reverse)

/-- Numeric value of a digit run. -/
def digitsToNat (cs : List Char) : Nat :=
  cs.foldl (fun a c => a * 10 + (c.toNat - 48)) 0

/-- A nonempty all-digit character run, as a number. -/
def digitRun (cs : List Char) : Option Nat :=
  if cs ≠ [] ∧ cs.all Char.isDigit then some (digitsToNat cs) else none

/-- Splitting on the dot character, accumulator-based
(`s.split(".")` in Python; the separator is a single character, so
character-level splitting is faithful).  The accumulator holds the current
component reversed. -/
def splitDotAux : List Char → List Char → List (List Char)
  | [], acc => [acc.reverse]
  | c :: t, acc => if c = '.' then acc.reverse :: splitDotAux t [] else splitDotAux t (c :: acc)

/-- Python `s.split(".")` (note `"".split(".") == [""]`). -/
def pySplitDot (s : String) : List String :=
  (splitDotAux s.toList []).map String.mk

/-- Python `int(s)` (success as `some`, `ValueError` as `none`): strip
whitespace, optional sign, nonempty digit run.  (Underscore digit grouping,
which Python also accepts, never occurs in version strings and is not
modelled.) -/
def pyInt (s : String) : Option Int :=
  match (pyStrip s).toList with
  | '-' :: rest => (digitRun rest).map (fun n => -(n : Int))
  | '+' :: rest => (digitRun rest).map (fun n => (n : Int))
  | cs => (digitRun cs).map (fun n => (n : Int))

/-- `major, minor = map(int, s.split(".")[:2])`: succeeds exactly when the
split yields at least two components and the first two are valid ints
(a single component raises `ValueError` from unpacking, a bad component
raises `ValueError` from `int`). -/
def parseMajorMinor (s : String) : Option (Int × Int) :=
  match (pySplitDot s).take 2 with
  | [a, b] =>
    match pyInt a, pyInt b with
    | some x, some y => some (x, y)
    | _, _ => none
  | _ => none

/-- `int(s.split(".")[0])` as used by the Xcode check. -/
def parseXcodeMajor (s : String) : Option Int :=
  match pySplitDot s with
  | [] => none
  | a :: _ => pyInt a

/-- The script's version comparison for the macOS check (inline expression
`passed = (major > req_major) or (major == req_major and minor >= req_minor)`). -/
def versionMeets (major minor reqMajor reqMinor : Int) : Bool :=
  major > reqMajor || (major == reqMajor && minor ≥ reqMinor)

/-- Python truthiness of an `os.getenv` result (`if mock_version:`):
present and nonempty. -/
def truthyStr : Option String → Bool
  | some s => s ≠ ""
  | none => false

/-- Placeholder for the text of the `ValueError` Python raises when `int()`
is applied to a malformed *requirement* string inside a check's `try` block;
no verified claim inspects this text (the requirement constants always
parse). -/
def intConvErrText (s : String) : String :=
  "invalid literal for int() with base 10: \x27" ++ s ++ "\x27"

/-- `re.match(r"(\d+)\.(\d+)", s)`: at the start of the string, a maximal
nonempty digit run, a literal dot, and a second nonempty digit run; the
groups as numbers. -/
def matchMajorMinor (s : String) : Option (Nat × Nat) :=
  let cs := s.toList
  let d1 := cs.takeWhile Char.isDigit
  if d1 = [] then none
  else
    match cs.drop d1.length with
    | '.' :: rest =>
      let d2 := rest.takeWhile Char.isDigit
      if d2 = [] then none else some (digitsToNat d1, digitsToNat d2)
    | _ => none

/-- The message shared by both macOS branches:
`f"macOS {current} {'meets' if passed else 'does not meet'} requirement (>= {required})"`. -/
def macosMessage (current : String) (passed : Bool) (required : String) : String :=
  "macOS " ++ current ++ " " ++ (if passed then "meets" else "does not meet") ++
    " requirement (>= " ++ required ++ ")"

/-- The macOS remediation: `f"Upgrade to macOS {required} or later"` when the
check failed, absent otherwise. -/
def macosFix (passed : Bool) (required : String) : Option String :=
  if passed then none else some ("Upgrade to macOS " ++ required ++ " or later")

/-- The mock-override block of `check_macos_version` (lines 63-81): when the
`MOCK_MACOS_VERSION` variable is truthy and both it and the requirement parse
as `major.minor`, a complete mocked result; otherwise `none` (the `except
(ValueError, IndexError): pass` fall-through). -/
def macosMockResult (env : Env) (required_version : String) : Option CheckResult :=
  match env.mockMacosVersion with
  | none => none
  | some mv =>
    if mv ≠ "" then
      match parseMajorMinor mv, parseMajorMinor required_version with
      | some (major, minor), some (reqMajor, reqMinor) =>
        let current := toString major ++ "." ++ toString minor
        let passed := versionMeets major minor reqMajor reqMinor
        some (CheckResult.mk "macOS Version" passed (some current)
          (macosMessage current passed required_version)
          (macosFix passed required_version))
      | _, _ => none
    else none

/-- The real-probe part of `check_macos_version` (lines 83-144): platform
guard, `sw_vers -productVersion`, output parsing, comparison; every failure
degrades to a failed `CheckResult`. -/
def realMacosProbe (env : Env) (required_version : String) : CheckResult :=
  if env.platformSystem ≠ "Darwin" then
    CheckResult.mk "macOS Version" false none "Not running on macOS"
      (some "This check is only applicable on macOS systems")
  else
    match env.swVers with
    | .raises e =>
      CheckResult.mk "macOS Version" false none
        ("Error checking macOS version: " ++
          (match e with | .fileNotFound m => m | .other m => m)) none
    | .completes r =>
      if r.returncode ≠ 0 then
        CheckResult.mk "macOS Version" false none "Failed to detect macOS version"
          (some "Ensure sw_vers command is available")
      else
        let version_str := pyStrip r.stdout
        match matchMajorMinor version_str with
        | none =>
          CheckResult.mk "macOS Version" false (some version_str)
            ("Could not parse macOS version: " ++ version_str) none
        | some (maj, min) =>
          match parseMajorMinor required_version with
          | none =>
            CheckResult.mk "macOS Version" false none
              ("Error checking macOS version: " ++ intConvErrText required_version) none
          | some (reqMajor, reqMinor) =>
            let current := toString maj ++ "." ++ toString min
            let passed := versionMeets (maj : Int) (min : Int) reqMajor reqMinor
            CheckResult.mk "macOS Version" passed (some current)
              (macosMessage current passed required_version)
              (macosFix passed required_version)

/-- `check_macos_version`: mock override first, real probe otherwise. -/
def check_macos_version (env : Env) (required_version : String) : CheckResult :=
  match macosMockResult env required_version with
  | some r => r
  | none => realMacosProbe env required_version

/-- The message shared by both Xcode branches:
`f"Xcode {v} {'meets' if passed else 'does not meet'} requirement (>= {required})"`. -/
def xcodeMessage (v : String) (passed : Bool) (required : String) : String :=
  "Xcode " ++ v ++ " " ++ (if passed then "meets" else "does not meet") ++
    " requirement (>= " ++ required ++ ")"

/-- The Xcode remediation on a failed comparison. -/
def xcodeFix (passed : Bool) (required : String) : Option String :=
  if passed then none
  else some ("Upgrade to Xcode " ++ required ++ " or later from the App Store")

/-- The mock-override block of `check_xcode_version` (lines 156-173): when
`MOCK_XCODE_VERSION` is truthy and both its major and the requirement's
major parse, a complete mocked result (whose `version` field is the raw
mock string); otherwise `none`. -/
def xcodeMockResult (env : Env) (required_version : String) : Option CheckResult :=
  match env.mockXcodeVersion with
  | none => none
  | some mv =>
    if mv ≠ "" then
      match parseXcodeMajor mv, parseXcodeMajor required_version with
      | some current_major, some req_major =>
        let passed : Bool := current_major ≥ req_major
        some (CheckResult.mk "Xcode Version" passed (some mv)
          (xcodeMessage mv passed required_version)
          (xcodeFix passed required_version))
      | _, _ => none
    else none

/-- `re.search(r"Xcode\s+(\d+(?:\.\d+)?)", out)` tried at one position: the
literal `Xcode`, at least one whitespace character, a nonempty digit run,
and optionally a dot followed by another nonempty digit run; the captured
group as a string. -/
def matchXcodeAt (cs : List Char) : Option String :=
  if ("Xcode".toList).isPrefixOf cs then
    let rest := cs.drop 5
    let ws := rest.takeWhile isPyWs
    if ws = [] then none
    else
      let rest2 := rest.drop ws.length
      let d1 := rest2.takeWhile Char.isDigit
      if d1 = [] then none
      else
        match rest2.drop d1.length with
        | '.' :: rest3 =>
          let d2 := rest3.takeWhile Char.isDigit
          if d2 = [] then some (String.mk d1)
          else some (String.mk (d1 ++ '.' :: d2))
        | _ => some (String.mk d1)
  else none

/-- `re.search` scanning: first position (left to right) where the Xcode
version pattern matches. -/
def searchXcodeAux : List Char → Option String
  | [] => none
  | c :: rest =>
    match matchXcodeAt (c :: rest) with
    | some v => some v
    | none => searchXcodeAux rest

/-- `re.search(r"Xcode\s+(\d+(?:\.\d+)?)", out)` over the whole string. -/
def searchXcodeVersion (s : String) : Option String :=
  searchXcodeAux s.toList

/-- The real-probe part of `check_xcode_version` (lines 175-230):
`xcodebuild -version`, output parsing, major-only comparison; the
`FileNotFoundError` handler gives a specific message, the generic handler
carries the exception text. -/
def realXcodeProbe (env : Env) (required_version : String) : CheckResult :=
  match env.xcodebuild with
  | .raises (.fileNotFound _) =>
    CheckResult.mk "Xcode Version" false none "xcodebuild command not found"
      (some "Install Xcode 16 or later from the App Store")
  | .raises (.other m) =>
    CheckResult.mk "Xcode Version" false none
      ("Error checking Xcode version: " ++ m) none
  | .completes r =>
    if r.returncode ≠ 0 then
      CheckResult.mk "Xcode Version" false none
        "Xcode not found or not properly installed"
        (some "Install Xcode 16 or later from the App Store")
    else
      let output := pyStrip r.stdout
      match searchXcodeVersion output with
      | none =>
        CheckResult.mk "Xcode Version" false none
          ("Could not parse Xcode version from: " ++ output)
          (some "Ensure Xcode is properly installed")
      | some version_str =>
        match parseXcodeMajor required_version with
        | none =>
          CheckResult.mk "Xcode Version" false none
            ("Error checking Xcode version: " ++ intConvErrText required_version) none
        | some req_major =>
          let current_major := (parseXcodeMajor version_str).getD 0
          let passed : Bool := current_major ≥ req_major
          CheckResult.mk "Xcode Version" passed (some version_str)
            (xcodeMessage version_str passed required_version)
            (xcodeFix passed required_version)

/-- `check_xcode_version`: mock override first, real probe otherwise. -/
def check_xcode_version (env : Env) (required_version : String) : CheckResult :=
  match xcodeMockResult env required_version with
  | some r => r
  | none => realXcodeProbe env required_version

/-- ASCII lowercasing of one character (Python `str.lower`; the strings
the Metal check lowercases are tool diagnostics containing only ASCII). -/
def pyLowerChar (c : Char) : Char :=
  if 'A' ≤ c ∧ c ≤ 'Z' then Char.ofNat (c.toNat + 32) else c

/-- Python `s.lower()`. -/
def pyLower (s : String) : String :=
  String.mk (s.toList.map pyLowerChar)

/-- `mock_available.lower() in ("true", "1", "yes")`: the Metal mock parse
is total — every string yields a boolean (this is why a malformed Metal
mock can never fall through by parse failure). -/
def parseMetalFlag (s : String) : Bool :=
  pyLower s = "true" || pyLower s = "1" || pyLower s = "yes"

/-- Substring containment of `needle` in the remaining haystack
(Python `needle in hay`). -/
def listContainsInfix (needle : List Char) : List Char → Bool
  | [] => needle.isEmpty
  | c :: t => needle.isPrefixOf (c :: t) || listContainsInfix needle t

/-- Python's `needle in hay` on strings. -/
def strContains (hay needle : String) : Bool :=
  listContainsInfix needle.toList hay.toList

/-- `re.search(r"metal version (\S+)", out)` tried at one position: the
literal `metal version ` followed by a nonempty maximal run of
non-whitespace characters (the captured token). -/
def matchMetalVerAt (cs : List Char) : Option String :=
  if ("metal version ".toList).isPrefixOf cs then
    let rest := cs.drop 14
    let tok := rest.takeWhile (fun c => !isPyWs c)
    if tok = [] then none else some (String.mk tok)
  else none

/-- `re.search` scanning for the Metal version token. -/
def searchMetalVerAux : List Char → Option String
  | [] => none
  | c :: rest =>
    match matchMetalVerAt (c :: rest) with
    | some v => some v
    | none => searchMetalVerAux rest

/-- `re.search(r"metal version (\S+)", out)` over the whole string. -/
def searchMetalVer (s : String) : Option String :=
  searchMetalVerAux s.toList

/-- The real-probe part of `check_metal_toolchain` (lines 250-307):
`xcrun -sdk macosx metal`, classification of the combined output by two
textual markers, any other output an "unexpected" failure carrying the raw
text.  (The exit status of the command is never consulted.) -/
def realMetalProbe (env : Env) : CheckResult :=
  match env.xcrunMetal with
  | .raises (.fileNotFound _) =>
    CheckResult.mk "Metal Toolchain" false none
      "xcrun command not found (Xcode Command Line Tools not installed)"
      (some "Install Xcode Command Line Tools: xcode-select --install")
  | .raises (.other m) =>
    CheckResult.mk "Metal Toolchain" false none
      ("Error checking Metal toolchain: " ++ m)
      (some "xcodebuild -downloadComponent MetalToolchain")
  | .completes r =>
    let output := r.stdout ++ r.stderr
    if strContains (pyLower output) "cannot execute tool \x27metal\x27" then
      CheckResult.mk "Metal Toolchain" false none "Metal toolchain not installed"
        (some "xcodebuild -downloadComponent MetalToolchain")
    else if strContains (pyLower output) "no input files" then
      match searchMetalVer output with
      | some version_str =>
        CheckResult.mk "Metal Toolchain" true (some version_str)
          ("Metal toolchain is available(" ++ version_str ++ ")") none
      | none =>
        CheckResult.mk "Metal Toolchain" true none "Metal toolchain is available" none
    else
      CheckResult.mk "Metal Toolchain" false none
        ("Unexpected Metal toolchain error: " ++ pyStrip output)
        (some "xcodebuild -downloadComponent MetalToolchain")

/-- `check_metal_toolchain` (lines 233-307): a truthy `MOCK_METAL_AVAILABLE`
always produces a mocked result (its parse is total); otherwise the real
probe runs. -/
def check_metal_toolchain (env : Env) : CheckResult :=
  match env.mockMetalAvailable with
  | some mv =>
    if mv ≠ "" then
      let is_available := parseMetalFlag mv
      CheckResult.mk "Metal Toolchain" is_available none
        ("Metal toolchain is " ++
          (if is_available then "available" else "not available") ++ " (mocked)")
        (if is_available then none
         else some "xcodebuild -downloadComponent MetalToolchain")
    else realMetalProbe env
  | none => realMetalProbe env

/-- The 70-character separator printed by the summary renderer
(`"=" * 70`). -/
def sep70 : String := String.mk (List.replicate 70 '=')

/-- The block of lines `print_summary` emits for one result: status line,
then conditionally the version line, the message line and the fix line
(each guarded by Python truthiness), then a blank line. -/
def summaryResultLines (r : CheckResult) : List String :=
  let status := if r.passed then "✓ PASS" else "✗ FAIL"
  let status_color := if r.passed then "\x1b[32m" else "\x1b[31m"
  let vline : List String :=
    match r.version with
    | some v => if v ≠ "" then ["     Version: " ++ v] else []
    | none => []
  let mline : List String := if r.message ≠ "" then ["     " ++ r.message] else []
  let fline : List String :=
    match r.fix_command with
    | some f => if f ≠ "" then ["     Fix: " ++ f] else []
    | none => []
  (status_color ++ status ++ "\x1b[0m " ++ r.name) :: vline ++ mline ++ fline ++ [""]

/-- The `all_passed` flag the summary renderer's loop maintains: it starts
true and is cleared whenever a result has a truthy `fix_command` (note:
not whenever a result failed). -/
def summaryAllPassed (results : List CheckResult) : Bool :=
  results.foldl (fun acc r => if truthyStr r.fix_command then false else acc) true

/-- The final banner line `print_summary` emits. -/
def summaryBanner (allPassed : Bool) : String :=
  if allPassed then "\x1b[32m✓ All checks passed!\x1b[0m"
  else "\x1b[31m✗ Some checks failed. Please address the issues above.\x1b[0m"

/-- `print_summary` (lines 310-342), as the list of lines written to
standard output (each `print` call contributes one line). -/
def print_summary (results : List CheckResult) : List String :=
  ["macOS Environment Check", sep70, ""] ++
    (results.map summaryResultLines).flatten ++
    [sep70, summaryBanner (summaryAllPassed results), ""]

/-- One element of the `checks` array `print_json` serializes. -/
structure JsonCheck where
  name : String
  passed : Bool
  version : Option String
  message : String
  fix_command : Option String
deriving DecidableEq, Repr

/-- The object `print_json` serializes:
`\x7ball_passed, checks: [...]\x7d`. -/
structure JsonReport where
  all_passed : Bool
  checks : List JsonCheck
deriving DecidableEq, Repr

/-- `print_json` (lines 345-360), at the level of the object handed to
`json.dumps`: `all_passed = all(r.passed for r in results)` and one entry
per result, preserving order and every field (absent options serialize as
null, never omitted). -/
def print_json (results : List CheckResult) : JsonReport :=
  JsonReport.mk (results.all (fun r => r.passed))
    (results.map (fun r => JsonCheck.mk r.name r.passed r.version r.message r.fix_command))

/-- JSON string escaping (backslash and double quote; the script's strings
contain no other characters `json.dumps` escapes). -/
def jsonEscape (s : String) : String :=
  String.mk (s.toList.foldr
    (fun c acc =>
      if c = '\x22' then '\\' :: '\x22' :: acc
      else if c = '\\' then '\\' :: '\\' :: acc
      else c :: acc) [])

/-- A JSON string literal. -/
def jsonOfStr (s : String) : String := "\x22" ++ jsonEscape s ++ "\x22"

/-- An optional string as JSON (None serializes as null). -/
def jsonOfOptStr : Option String → String
  | some s => jsonOfStr s
  | none => "null"

/-- A boolean as JSON. -/
def jsonOfBool (b : Bool) : String := if b then "true" else "false"

/-- One check entry as JSON text. -/
def jsonOfCheck (c : JsonCheck) : String :=
  "\x7b\x22name\x22: " ++ jsonOfStr c.name ++
    ", \x22passed\x22: " ++ jsonOfBool c.passed ++
    ", \x22version\x22: " ++ jsonOfOptStr c.version ++
    ", \x22message\x22: " ++ jsonOfStr c.message ++
    ", \x22fix_command\x22: " ++ jsonOfOptStr c.fix_command ++ "\x7d"

/-- `json.dumps(output, indent=2)` for the report, modulo indentation
(no verified claim inspects the serialized text beyond its presence). -/
def jsonDumpReport (rep : JsonReport) : String :=
  "\x7b\x22all_passed\x22: " ++ jsonOfBool rep.all_passed ++
    ", \x22checks\x22: [" ++
    String.intercalate ", " (rep.checks.map jsonOfCheck) ++ "]\x7d"

/-- The two mode flags `argparse` produces for `main`. -/
structure Args where
  json : Bool
  quiet : Bool
deriving DecidableEq, Repr

/-- What `main` wrote to standard output: the summary lines, the JSON
report, or nothing (quiet mode). -/
inductive Rendered where
  | summaryOut (lines : List String)
  | jsonOut (report : JsonReport)
  | quietOut
deriving DecidableEq, Repr

/-- The lines a `Rendered` value puts on standard output. -/
def Rendered.stdoutLines : Rendered → List String
  | .summaryOut ls => ls
  | .jsonOut rep => [jsonDumpReport rep]
  | .quietOut => []

/-- The state `main` builds: the ordered result list, the aggregate
verdict, the rendered output, and the `sys.exit` code. -/
structure MainRun where
  results : List CheckResult
  all_passed : Bool
  rendered : Rendered
  exitCode : Nat
deriving DecidableEq, Repr

/-- `main` (lines 363-414): runs the three checks in fixed order,
aggregates `all_passed = all(r.passed for r in results)`, renders in
exactly one mode (`--quiet` checked before `--json`, default summary),
and exits 0 when all passed, else 1. -/
def main_run (env : Env) (args : Args) : MainRun :=
  let results : List CheckResult :=
    [check_macos_version env REQUIRED_MACOS_VERSION,
     check_xcode_version env REQUIRED_XCODE_VERSION,
     check_metal_toolchain env]
  let ap : Bool := results.all (fun r => r.passed)
  let rendered : Rendered :=
    if args.quiet then Rendered.quietOut
    else if args.json then Rendered.jsonOut (print_json results)
    else Rendered.summaryOut (print_summary results)
  MainRun.mk results ap rendered (if ap then 0 else 1)

/-! ## Helper lemmas -/

theorem summaryFoldl_eq (t : List CheckResult) (b : Bool) :
    t.foldl (fun acc r => if truthyStr r.fix_command then false else acc) b =
      (b && t.all fun r => !truthyStr r.fix_command) := by
  induction t generalizing b with
  | nil => simp
  | cons a t ih =>
    rw [List.foldl_cons, ih, List.all_cons]
    cases h : truthyStr a.fix_command <;> cases b <;> simp [h]

theorem summaryAllPassed_eq_all (l : List CheckResult) :
    summaryAllPassed l = l.all (fun r => !truthyStr r.fix_command) := by
  unfold summaryAllPassed
  rw [summaryFoldl_eq]
  simp

theorem all_congrAux {α : Type} (f g : α → Bool) :
    ∀ l : List α, (∀ r ∈ l, f r = g r) → l.all f = l.all g := by
  intro l h
  induction l with
  | nil => rfl
  | cons a t ih =>
    simp only [List.all_cons]
    rw [h a (by simp), ih (fun r hr => h r (by simp [hr]))]

/-! ## Claim theorems -/

/-- Claim C4 (confirmed): the macOS comparator returns true iff
`major > reqMajor` or (`major = reqMajor` and `minor ≥ reqMinor`); and a
truthy, parseable `MOCK_MACOS_VERSION` takes precedence over the real
probe (the result does not depend on any probe field of the environment)
with `passed` equal to the comparator applied to the mocked pair against
the configured requirement `15.0`. -/
theorem macos_comparator_and_mock_precedence :
    (∀ major minor reqMajor reqMinor : Int,
      versionMeets major minor reqMajor reqMinor = true ↔
        (reqMajor < major ∨ (major = reqMajor ∧ reqMinor ≤ minor))) ∧
    (∀ (env env2 : Env) (v : String) (major minor : Int),
      env.mockMacosVersion = some v → v ≠ "" →
      parseMajorMinor v = some (major, minor) →
      env2.mockMacosVersion = some v →
      check_macos_version env REQUIRED_MACOS_VERSION =
        check_macos_version env2 REQUIRED_MACOS_VERSION ∧
      (check_macos_version env REQUIRED_MACOS_VERSION).passed =
        versionMeets major minor 15 0) := by
  constructor
  · intro major minor reqMajor reqMinor
    simp [versionMeets]
  · intro env env2 v major minor h1 h2 h3 h4
    have hreq : parseMajorMinor REQUIRED_MACOS_VERSION = some (15, 0) := by decide
    constructor
    · simp [check_macos_version, macosMockResult, h1, h2, h3, h4, hreq]
    · simp [check_macos_version, macosMockResult, h1, h2, h3, hreq]

/-- Environment for the C4 witness: mock set to `14.3`, real probes healthy. -/
def envC4a : Env :=
  Env.mk (some "14.3") none none "Darwin" (.completes (ProcResult.mk 0 "15.0" ""))
    (.completes (ProcResult.mk 0 "" "")) (.completes (ProcResult.mk 0 "" ""))

/-- Second environment for the C4 witness: same mock, entirely different
probe outcomes and platform. -/
def envC4b : Env :=
  Env.mk (some "14.3") (some "x") (some "") "Linux" (.raises (.other "boom"))
    (.raises (.fileNotFound "nf")) (.completes (ProcResult.mk 1 "z" ""))

theorem macos_comparator_and_mock_precedence_witness :
    check_macos_version envC4a REQUIRED_MACOS_VERSION =
      check_macos_version envC4b REQUIRED_MACOS_VERSION ∧
    (check_macos_version envC4a REQUIRED_MACOS_VERSION).passed =
      versionMeets 14 3 15 0 :=
  macos_comparator_and_mock_precedence.2 envC4a envC4b "14.3" 14 3 rfl (by decide)
    (by decide) rfl

/-- Claim C5 (confirmed): the Xcode check compares only major versions,
`passed = (detected major ≥ 16)`, on both the mocked path and the real
probe path; the minor component never enters the comparison. -/
theorem xcode_major_only_comparison :
    (∀ (env : Env) (v : String) (cm : Int),
      env.mockXcodeVersion = some v → v ≠ "" →
      parseXcodeMajor v = some cm →
      (check_xcode_version env REQUIRED_XCODE_VERSION).passed = decide (cm ≥ 16)) ∧
    (∀ (env : Env) (pr : ProcResult) (vstr : String),
      xcodeMockResult env REQUIRED_XCODE_VERSION = none →
      env.xcodebuild = .completes pr → pr.returncode = 0 →
      searchXcodeVersion (pyStrip pr.stdout) = some vstr →
      (check_xcode_version env REQUIRED_XCODE_VERSION).passed =
        decide ((parseXcodeMajor vstr).getD 0 ≥ 16)) := by
  have hreq : parseXcodeMajor REQUIRED_XCODE_VERSION = some 16 := by decide
  constructor
  · intro env v cm h1 h2 h3
    simp [check_xcode_version, xcodeMockResult, h1, h2, h3, hreq]
  · intro env pr vstr h1 h2 h3 h4
    simp [check_xcode_version, h1, realXcodeProbe, h2, h3, h4, hreq]

/-- Environment for the C5 witness (mocked path): mock `15.2` fails the
major-only comparison regardless of its minor. -/
def envC5a : Env :=
  Env.mk none (some "15.2") none "Darwin" (.completes (ProcResult.mk 0 "" ""))
    (.completes (ProcResult.mk 0 "" "")) (.completes (ProcResult.mk 0 "" ""))

/-- Environment for the C5 witness (real path): `xcodebuild -version`
reports Xcode 16.1. -/
def envC5b : Env :=
  Env.mk none none none "Darwin" (.completes (ProcResult.mk 0 "" ""))
    (.completes (ProcResult.mk 0 "Xcode 16.1\nBuild version 16B40" ""))
    (.completes (ProcResult.mk 0 "" ""))

theorem xcode_major_only_comparison_witness :
    (check_xcode_version envC5a REQUIRED_XCODE_VERSION).passed =
      decide ((15 : Int) ≥ 16) ∧
    (check_xcode_version envC5b REQUIRED_XCODE_VERSION).passed =
      decide ((parseXcodeMajor "16.1").getD 0 ≥ 16) :=
  ⟨xcode_major_only_comparison.1 envC5a "15.2" 15 rfl (by decide) (by decide),
   xcode_major_only_comparison.2 envC5b (ProcResult.mk 0 "Xcode 16.1\nBuild version 16B40" "")
     "16.1" rfl rfl rfl (by decide)⟩

/-- The Metal mock parse viewed as a fallible parser: it is total (`some`
on every string), which is exactly why no malformed Metal mock value
exists — the fall-through clause for the Metal check below is therefore
vacuously satisfied by the code. -/
def parseMetalMock (s : String) : Option Bool := some (parseMetalFlag s)

/-- Claim C2 (confirmed): a mock override value whose parse fails never
crashes the check (all embedded check functions are total) and falls
through to the real probe.  For the Metal check the mock parse is total,
so no failing value exists and the clause holds vacuously. -/
theorem malformed_mock_falls_through :
    (∀ (env : Env) (v : String),
      env.mockMacosVersion = some v → parseMajorMinor v = none →
      check_macos_version env REQUIRED_MACOS_VERSION =
        realMacosProbe env REQUIRED_MACOS_VERSION) ∧
    (∀ (env : Env) (v : String),
      env.mockXcodeVersion = some v → parseXcodeMajor v = none →
      check_xcode_version env REQUIRED_XCODE_VERSION =
        realXcodeProbe env REQUIRED_XCODE_VERSION) ∧
    (∀ (env : Env) (v : String),
      env.mockMetalAvailable = some v → parseMetalMock v = none →
      check_metal_toolchain env = realMetalProbe env) := by
  refine ⟨?_, ?_, ?_⟩
  · intro env v h1 h2
    rcases eq_or_ne v "" with hv | hv <;>
      simp [check_macos_version, macosMockResult, h1, h2, hv]
  · intro env v h1 h2
    rcases eq_or_ne v "" with hv | hv <;>
      simp [check_xcode_version, xcodeMockResult, h1, h2, hv]
  · intro env v _ h2
    simp [parseMetalMock] at h2

/-- Environment for the C2 witness: malformed macOS and Xcode mocks. -/
def envC2 : Env :=
  Env.mk (some "bogus") (some "x.y") none "Darwin"
    (.completes (ProcResult.mk 0 "15.1" ""))
    (.completes (ProcResult.mk 0 "Xcode 16.0" ""))
    (.completes (ProcResult.mk 0 "" ""))

theorem malformed_mock_falls_through_witness :
    check_macos_version envC2 REQUIRED_MACOS_VERSION =
      realMacosProbe envC2 REQUIRED_MACOS_VERSION ∧
    check_xcode_version envC2 REQUIRED_XCODE_VERSION =
      realXcodeProbe envC2 REQUIRED_XCODE_VERSION :=
  ⟨malformed_mock_falls_through.1 envC2 "bogus" rfl (by decide),
   malformed_mock_falls_through.2.1 envC2 "x.y" rfl (by decide)⟩

/-- Claim C10 (confirmed): for every check kind, a mock override set to the
empty string is treated exactly as an absent override — the check runs the
real probe and produces no mocked result. -/
theorem empty_mock_treated_as_absent :
    ∀ (m x l : Option String) (ps : String) (sv xb xm : ProbeOutcome) (req req2 : String),
      check_macos_version (Env.mk (some "") x l ps sv xb xm) req =
        check_macos_version (Env.mk none x l ps sv xb xm) req ∧
      check_xcode_version (Env.mk m (some "") l ps sv xb xm) req2 =
        check_xcode_version (Env.mk m none l ps sv xb xm) req2 ∧
      check_metal_toolchain (Env.mk m x (some "") ps sv xb xm) =
        check_metal_toolchain (Env.mk m x none ps sv xb xm) := by
  intro m x l ps sv xb xm req req2
  exact ⟨rfl, rfl, rfl⟩

/-- A passed result built with the macOS remediation rule never carries a
fix command. -/
theorem macosFix_and_false (b : Bool) (req : String) :
    (b && (macosFix b req).isSome) = false := by
  cases b <;> simp [macosFix]

/-- A passed result built with the Xcode remediation rule never carries a
fix command. -/
theorem xcodeFix_and_false (b : Bool) (req : String) :
    (b && (xcodeFix b req).isSome) = false := by
  cases b <;> simp [xcodeFix]

/-- Environment exhibiting the C3 counterexample: on macOS, `sw_vers`
succeeds but its output does not parse as a version, so the check fails
with no `fix_command`. -/
def envC3 : Env :=
  Env.mk none none none "Darwin" (.completes (ProcResult.mk 0 "garbage" ""))
    (.completes (ProcResult.mk 0 "" "")) (.completes (ProcResult.mk 0 "" ""))

/-- Claim C3 counterexample: the macOS check's version-parse-failure path
produces `passed = false` together with `fix_command = none`, refuting the
"if" direction of "fix_command is populated iff passed is false". -/
theorem failed_result_without_fix_cx :
    (check_macos_version envC3 REQUIRED_MACOS_VERSION).passed = false ∧
    (check_macos_version envC3 REQUIRED_MACOS_VERSION).fix_command = none := by
  decide

/-- A mocked availability-flag result never pairs a pass with a fix. -/
theorem flagFix_and_false (b : Bool) (s : String) :
    (b && (if b then none else some s : Option String).isSome) = false := by
  cases b <;> simp

/-- Any result the macOS mock block produces satisfies the one-sided
fix/passed invariant. -/
theorem macosMock_fix (env : Env) (req : String) (r : CheckResult)
    (h : macosMockResult env req = some r) :
    (r.passed && r.fix_command.isSome) = false := by
  unfold macosMockResult at h
  repeat' split at h
  all_goals simp at h
  subst h
  exact macosFix_and_false _ _

/-- The real macOS probe satisfies the one-sided fix/passed invariant. -/
theorem realMacos_fix (env : Env) (req : String) :
    ((realMacosProbe env req).passed &&
      (realMacosProbe env req).fix_command.isSome) = false := by
  unfold realMacosProbe
  dsimp only
  repeat' split
  all_goals first | exact macosFix_and_false _ _ | simp

/-- Any result the Xcode mock block produces satisfies the one-sided
fix/passed invariant. -/
theorem xcodeMock_fix (env : Env) (req : String) (r : CheckResult)
    (h : xcodeMockResult env req = some r) :
    (r.passed && r.fix_command.isSome) = false := by
  unfold xcodeMockResult at h
  repeat' split at h
  all_goals simp at h
  subst h
  exact xcodeFix_and_false _ _

/-- The real Xcode probe satisfies the one-sided fix/passed invariant. -/
theorem realXcode_fix (env : Env) (req : String) :
    ((realXcodeProbe env req).passed &&
      (realXcodeProbe env req).fix_command.isSome) = false := by
  unfold realXcodeProbe
  dsimp only
  repeat' split
  all_goals first | exact xcodeFix_and_false _ _ | simp

/-- The real Metal probe satisfies the one-sided fix/passed invariant. -/
theorem realMetal_fix (env : Env) :
    ((realMetalProbe env).passed &&
      (realMetalProbe env).fix_command.isSome) = false := by
  unfold realMetalProbe
  dsimp only
  repeat' split
  all_goals simp

/-- Claim C3 (corrected): only the "only if" direction holds.  For every
environment and requirement, no check ever populates `fix_command` on a
passed result; the converse fails (see the counterexample). -/
theorem fix_command_only_on_failure :
    ∀ (env : Env) (reqM reqX : String),
      ((check_macos_version env reqM).passed &&
        (check_macos_version env reqM).fix_command.isSome) = false ∧
      ((check_xcode_version env reqX).passed &&
        (check_xcode_version env reqX).fix_command.isSome) = false ∧
      ((check_metal_toolchain env).passed &&
        (check_metal_toolchain env).fix_command.isSome) = false := by
  intro env reqM reqX
  refine ⟨?_, ?_, ?_⟩
  · unfold check_macos_version
    rcases h : macosMockResult env reqM with _ | r
    · exact realMacos_fix env reqM
    · exact macosMock_fix env reqM r h
  · unfold check_xcode_version
    rcases h : xcodeMockResult env reqX with _ | r
    · exact realXcode_fix env reqX
    · exact xcodeMock_fix env reqX r h
  · unfold check_metal_toolchain
    rcases hm : env.mockMetalAvailable with _ | mv
    · exact realMetal_fix env
    · by_cases hv : mv = ""
      · subst hv
        exact realMetal_fix env
      · cases hb : parseMetalFlag mv <;> simp [hv, hb]

/-- Claim C6 (confirmed): `main` runs exactly the three checks, in the
fixed order macOS / Xcode / Metal, each once, never short-circuiting, and
aggregates `all_passed` as the conjunction of the individual `passed`
fields. -/
theorem main_runs_all_checks_in_order :
    ∀ (env : Env) (args : Args),
      (main_run env args).results =
        [check_macos_version env REQUIRED_MACOS_VERSION,
         check_xcode_version env REQUIRED_XCODE_VERSION,
         check_metal_toolchain env] ∧
      (main_run env args).all_passed =
        ((check_macos_version env REQUIRED_MACOS_VERSION).passed &&
          ((check_xcode_version env REQUIRED_XCODE_VERSION).passed &&
            (check_metal_toolchain env).passed)) := by
  intro env args
  refine ⟨rfl, ?_⟩
  simp [main_run, List.all]

/-- Claim C7 (confirmed): in every output mode the process exits 0 iff all
checks passed and 1 otherwise, and quiet mode writes nothing to standard
output regardless of the verdict. -/
theorem exit_code_and_quiet_mode :
    ∀ (env : Env) (args : Args),
      ((main_run env args).exitCode = 0 ↔ (main_run env args).all_passed = true) ∧
      ((main_run env args).exitCode = 1 ↔ (main_run env args).all_passed = false) ∧
      (args.quiet = true → Rendered.stdoutLines (main_run env args).rendered = []) := by
  intro env args
  unfold main_run
  cases hap : [check_macos_version env REQUIRED_MACOS_VERSION,
      check_xcode_version env REQUIRED_XCODE_VERSION,
      check_metal_toolchain env].all (fun r => r.passed) <;>
    refine ⟨by simp, by simp, ?_⟩ <;>
    · intro hq
      simp [hq, Rendered.stdoutLines]

/-- Environment for the C7 witness: everything mocked to pass. -/
def envC7 : Env :=
  Env.mk (some "15.0") (some "16.0") (some "true") "Darwin"
    (.completes (ProcResult.mk 0 "" "")) (.completes (ProcResult.mk 0 "" ""))
    (.completes (ProcResult.mk 0 "" ""))

theorem exit_code_and_quiet_mode_witness :
    Rendered.stdoutLines (main_run envC7 (Args.mk false true)).rendered = [] :=
  (exit_code_and_quiet_mode envC7 (Args.mk false true)).2.2 rfl

/-- Claim C8 (confirmed): when a probe raises, the check still returns (the
embedded checks are total functions) with `passed = false`; for an
unexpected exception the message carries the exception's description. -/
theorem probe_exception_becomes_failed_result :
    ∀ (env : Env) (e : PyExc) (msg : String),
      (macosMockResult env REQUIRED_MACOS_VERSION = none →
        env.platformSystem = "Darwin" → env.swVers = .raises e →
        (check_macos_version env REQUIRED_MACOS_VERSION).passed = false) ∧
      (macosMockResult env REQUIRED_MACOS_VERSION = none →
        env.platformSystem = "Darwin" → env.swVers = .raises (.other msg) →
        check_macos_version env REQUIRED_MACOS_VERSION =
          CheckResult.mk "macOS Version" false none
            ("Error checking macOS version: " ++ msg) none) ∧
      (xcodeMockResult env REQUIRED_XCODE_VERSION = none →
        env.xcodebuild = .raises e →
        (check_xcode_version env REQUIRED_XCODE_VERSION).passed = false) ∧
      (xcodeMockResult env REQUIRED_XCODE_VERSION = none →
        env.xcodebuild = .raises (.other msg) →
        check_xcode_version env REQUIRED_XCODE_VERSION =
          CheckResult.mk "Xcode Version" false none
            ("Error checking Xcode version: " ++ msg) none) ∧
      (truthyStr env.mockMetalAvailable = false →
        env.xcrunMetal = .raises e →
        (check_metal_toolchain env).passed = false) ∧
      (truthyStr env.mockMetalAvailable = false →
        env.xcrunMetal = .raises (.other msg) →
        check_metal_toolchain env =
          CheckResult.mk "Metal Toolchain" false none
            ("Error checking Metal toolchain: " ++ msg)
            (some "xcodebuild -downloadComponent MetalToolchain")) := by
  intro env e msg
  refine ⟨?_, ?_, ?_, ?_, ?_, ?_⟩
  · intro h1 h2 h3
    rcases e <;> simp [check_macos_version, h1, realMacosProbe, h2, h3]
  · intro h1 h2 h3
    simp [check_macos_version, h1, realMacosProbe, h2, h3]
  · intro h1 h2
    rcases e <;> simp [check_xcode_version, h1, realXcodeProbe, h2]
  · intro h1 h2
    simp [check_xcode_version, h1, realXcodeProbe, h2]
  · intro h1 h2
    rcases hl : env.mockMetalAvailable with _ | mv
    · rcases e <;> simp [check_metal_toolchain, hl, realMetalProbe, h2]
    · rw [hl] at h1
      simp only [truthyStr, ne_eq, decide_not, Bool.not_eq_false] at h1
      have hmv : mv = "" := by
        by_contra hc
        simp [hc] at h1
      subst hmv
      rcases e <;> simp [check_metal_toolchain, hl, realMetalProbe, h2]
  · intro h1 h2
    rcases hl : env.mockMetalAvailable with _ | mv
    · simp [check_metal_toolchain, hl, realMetalProbe, h2]
    · rw [hl] at h1
      have hmv : mv = "" := by
        by_contra hc
        simp [truthyStr, hc] at h1
      subst hmv
      simp [check_metal_toolchain, hl, realMetalProbe, h2]

/-- Environment for the C8 witness: no mocks, every probe raises an
unexpected exception described as `boom`. -/
def envC8 : Env :=
  Env.mk none none none "Darwin" (.raises (.other "boom"))
    (.raises (.other "boom")) (.raises (.other "boom"))

theorem probe_exception_becomes_failed_result_witness :
    check_macos_version envC8 REQUIRED_MACOS_VERSION =
      CheckResult.mk "macOS Version" false none
        ("Error checking macOS version: " ++ "boom") none ∧
    check_metal_toolchain envC8 =
      CheckResult.mk "Metal Toolchain" false none
        ("Error checking Metal toolchain: " ++ "boom")
        (some "xcodebuild -downloadComponent MetalToolchain") :=
  ⟨(probe_exception_becomes_failed_result envC8 (.other "boom") "boom").2.1 rfl rfl rfl,
   (probe_exception_becomes_failed_result envC8 (.other "boom") "boom").2.2.2.2.2 rfl rfl⟩

/-- Claim C9 (confirmed): in the unmocked Metal check, combined output
containing the missing-toolchain marker fails with the download
remediation; otherwise output containing `no input files` passes, with the
`version` field exactly the optionally extracted `metal version` token;
any other output fails with a message carrying the raw (stripped) output
text.  (The two markers are tested in this order by the source.) -/
theorem metal_output_classification :
    ∀ (env : Env) (pr : ProcResult),
      truthyStr env.mockMetalAvailable = false →
      env.xcrunMetal = .completes pr →
      (strContains (pyLower (pr.stdout ++ pr.stderr))
          "cannot execute tool \x27metal\x27" = true →
        check_metal_toolchain env =
          CheckResult.mk "Metal Toolchain" false none "Metal toolchain not installed"
            (some "xcodebuild -downloadComponent MetalToolchain")) ∧
      (strContains (pyLower (pr.stdout ++ pr.stderr))
          "cannot execute tool \x27metal\x27" = false →
        strContains (pyLower (pr.stdout ++ pr.stderr)) "no input files" = true →
        (check_metal_toolchain env).passed = true ∧
        (check_metal_toolchain env).version = searchMetalVer (pr.stdout ++ pr.stderr) ∧
        (check_metal_toolchain env).fix_command = none) ∧
      (strContains (pyLower (pr.stdout ++ pr.stderr))
          "cannot execute tool \x27metal\x27" = false →
        strContains (pyLower (pr.stdout ++ pr.stderr)) "no input files" = false →
        check_metal_toolchain env =
          CheckResult.mk "Metal Toolchain" false none
            ("Unexpected Metal toolchain error: " ++ pyStrip (pr.stdout ++ pr.stderr))
            (some "xcodebuild -downloadComponent MetalToolchain")) := by
  intro env pr h1 h2
  have hreal : check_metal_toolchain env = realMetalProbe env := by
    unfold check_metal_toolchain
    rcases hm : env.mockMetalAvailable with _ | mv
    · rfl
    · rw [hm] at h1
      have hv : mv = "" := by
        by_contra hc
        simp [truthyStr, hc] at h1
      subst hv
      rfl
  rw [hreal]
  unfold realMetalProbe
  rw [h2]
  refine ⟨?_, ?_, ?_⟩
  · intro hc
    simp [hc]
  · intro hc hn
    rcases hv : searchMetalVer (pr.stdout ++ pr.stderr) with _ | tok <;>
      simp [hc, hn, hv]
  · intro hc hn
    simp [hc, hn]

/-- Environment for the C9 witness: no Metal mock, and the probe's
combined output is the expected `no input files` diagnostic with a
version token. -/
def envC9 : Env :=
  Env.mk none none none "Darwin" (.completes (ProcResult.mk 0 "" ""))
    (.completes (ProcResult.mk 0 "" ""))
    (.completes (ProcResult.mk 1 ""
      "Apple metal version 32023.404\nmetal: error: no input files"))

theorem metal_output_classification_witness :
    (check_metal_toolchain envC9).passed = true ∧
    (check_metal_toolchain envC9).version =
      searchMetalVer ("" ++ "Apple metal version 32023.404\nmetal: error: no input files") ∧
    (check_metal_toolchain envC9).fix_command = none :=
  (metal_output_classification envC9
      (ProcResult.mk 1 "" "Apple metal version 32023.404\nmetal: error: no input files")
      rfl rfl).2.1 (by decide) (by decide)

/-- Claim C1 counterexample: on the single-element list containing a failed
result with no `fix_command` (a shape the macOS check really produces, see
the C3 counterexample), the Summary renderer's final banner is the success
banner while the JSON report serializes `all_passed = false` — the two
renderers disagree on the overall verdict. -/
theorem summary_json_verdicts_differ_cx :
    ((print_summary [CheckResult.mk "Sample Check" false none "failure without remediation" none]).contains
        (summaryBanner true) = true) ∧
    ((print_summary [CheckResult.mk "Sample Check" false none "failure without remediation" none]).contains
        (summaryBanner false) = false) ∧
    ((print_json [CheckResult.mk "Sample Check" false none "failure without remediation" none]).all_passed
        = false) := by
  decide

/-- Claim C1 (corrected): the per-check pass/fail renderings of the two
renderers always agree (the JSON `passed` fields are the results' `passed`
fields, and each Summary status line shows the PASS glyph exactly when the
result passed); and the Summary banner verdict agrees with the JSON
`all_passed` for every result list in which `fix_command` is populated
exactly on failure — which every mocked result satisfies.  Without that
side condition the banner can disagree (see the counterexample): the
Summary banner is driven by `fix_command` truthiness, not by `passed`. -/
theorem summary_json_agree_when_fix_tracks_failure :
    ∀ results : List CheckResult,
      ((print_json results).checks.map (fun c => c.passed) =
        results.map (fun r => r.passed)) ∧
      (∀ r ∈ results,
        (summaryResultLines r).head? =
          some ((if r.passed then "\x1b[32m" else "\x1b[31m") ++
            (if r.passed then "✓ PASS" else "✗ FAIL") ++ "\x1b[0m " ++ r.name)) ∧
      ((∀ r ∈ results, truthyStr r.fix_command = !r.passed) →
        summaryAllPassed results = (print_json results).all_passed) := by
  intro results
  refine ⟨?_, ?_, ?_⟩
  · simp [print_json]
  · intro r _
    cases hp : r.passed <;> simp [summaryResultLines, hp]
  · intro h
    rw [summaryAllPassed_eq_all]
    have : (print_json results).all_passed = results.all (fun r => r.passed) := rfl
    rw [this]
    refine all_congrAux _ _ results ?_
    intro r hr
    rw [h r hr, Bool.not_not]

theorem summary_json_agree_when_fix_tracks_failure_witness :
    summaryAllPassed [CheckResult.mk "A" true none "ok" none] =
      (print_json [CheckResult.mk "A" true none "ok" none]).all_passed :=
  (summary_json_agree_when_fix_tracks_failure
      [CheckResult.mk "A" true none "ok" none]).2.2 (by decide)

end MacosEnvCheck
